import Mathlib

/-!
# Verification of pyramid_uniform

A shallow embedding of `pyramid_uniform/__init__.py`: a thin adapter
binding HTTP request data to a FormEncode-style schema validator and an
HTML tag helper. Python objects become Lean structures; mutation of the
request's parameter dictionaries is modelled with an explicit store of
dictionaries addressed by references, so that copy-vs-mutate questions
are observable. Exceptions become an `Except` result; when the Python
code mutates `self` before raising, the mutated form is returned
alongside the error.
-/

set_option autoImplicit false

namespace PyramidUniform

/-- A Python value as it appears in parameter/data dictionaries:
a string (the usual case for request parameters), a bool (used for
`checked` flags), or `None`. -/
inductive Val where
  | str (s : String)
  | bool (b : Bool)
  | none
  deriving DecidableEq, Repr

/-- Python truthiness for the values we model: empty string and
`False` and `None` are falsy. -/
def pyTruthy : Val → Bool
  | .str s => s ≠ ""
  | .bool b => b
  | .none => false

/-- A Python dict (or webob MultiDict) as an association list. -/
abbrev Dict := List (String × Val)

/-- `d.get(k)` / `d[k]` lookup: first entry with the given key. -/
def dictGet : Dict → String → Option Val
  | [], _ => Option.none
  | p :: rest, k => if p.1 = k then some p.2 else dictGet rest k

/-- `k in d` membership test. -/
def dictContains : Dict → String → Bool
  | [], _ => false
  | p :: rest, k => if p.1 = k then true else dictContains rest k

/-- `d.pop(k)` result on the dict itself: the entries whose key is not
`k` (the code only pops keys it has just checked are present). -/
def dictPop (d : Dict) (k : String) : Dict :=
  d.filter (fun p => p.1 ≠ k)

/-- A reference to a dictionary object on the heap. Python passes
dictionaries by reference; `copy()` allocates a fresh one. -/
structure Ref where
  idx : Nat
  deriving DecidableEq, Repr

/-- The heap of dictionary objects reachable from a request. -/
structure Store where
  dicts : List Dict
  deriving Repr

/-- Dereference. -/
def Store.read (s : Store) (r : Ref) : Dict :=
  s.dicts.getD r.idx []

/-- Overwrite the dictionary a reference points to. -/
def Store.write (s : Store) (r : Ref) (d : Dict) : Store :=
  ⟨s.dicts.set r.idx d⟩

/-- `d.copy()`: allocate a fresh dictionary holding the same entries. -/
def Store.alloc (s : Store) (d : Dict) : Store × Ref :=
  (⟨s.dicts ++ [d]⟩, ⟨s.dicts.length⟩)

/-- `d.pop(k)` as a heap mutation of the referenced dictionary. -/
def Store.popKey (s : Store) (r : Ref) (k : String) : Store :=
  s.write r (dictPop (s.read r) k)

/-- Session collaborator: exposes `get_csrf_token()`. -/
structure Session where
  csrfToken : String
  deriving DecidableEq, Repr

def Session.get_csrf_token (s : Session) : String :=
  s.csrfToken

/-- Request collaborator: method string, the POST parameter dict, the
combined params dict (both live on the heap), the session, and the
path/url strings used by rendering and logging. -/
structure Request where
  method : String
  POST : Ref
  params : Ref
  session : Session
  path : String
  url : String
  deriving DecidableEq, Repr

/-- `State`: a relatively simple state object for FormEncode to use,
with a reference to the request being validated. -/
structure State where
  request : Request
  deriving DecidableEq, Repr

/-- A FormEncode `Invalid` exception: a message plus the (possibly
absent, i.e. empty) `error_dict` of per-field nested failures. A nested
failure that itself has a truthy `error_dict` unpacks recursively;
otherwise its message is the leaf error. The `error_list` variant of
FormEncode is not used by this adapter's claims and is not modelled. -/
inductive InvalidExc where
  | mk (msg : String) (errs : List (String × InvalidExc))

def InvalidExc.msg : InvalidExc → String
  | .mk m _ => m

def InvalidExc.error_dict : InvalidExc → List (String × InvalidExc)
  | .mk _ d => d

mutual

/-- One field of `unpack_errors(encode_variables=True, dict_char, ...)`:
if the nested failure has a truthy error dict, recurse with the key
joined by `dict_char`; otherwise emit the message at this key. -/
def unpackExc (dc key : String) : InvalidExc → List (String × String)
  | .mk m kvs =>
    if kvs.isEmpty then [(key, m)] else unpackDict dc key kvs

def unpackDict (dc key : String) : List (String × InvalidExc) → List (String × String)
  | [] => []
  | (k, e) :: rest => unpackExc dc (key ++ dc ++ k) e ++ unpackDict dc key rest

/-- The top level of `unpack_errors`: keys of the outer error dict are
used as-is, nested keys get joined with `dict_char`. -/
def unpackTop (dc : String) : List (String × InvalidExc) → List (String × String)
  | [] => []
  | (k, e) :: rest => unpackExc dc k e ++ unpackTop dc rest

end

/-- An entry of the `errors` dict: FormEncode may store a bare string
or a list of strings; `errors_for` normalizes. -/
inductive ErrVal where
  | s (m : String)
  | l (ms : List String)
  deriving DecidableEq, Repr

abbrev Errors := List (String × ErrVal)

/-- `Invalid.unpack_errors(True, dict_char, list_char)`. The
`list_char` argument only matters for `error_list` failures, which are
not modelled; it is kept for signature fidelity. -/
def InvalidExc.unpack_errors (e : InvalidExc) (dc lc : String) : Errors :=
  let _ := lc
  (unpackTop dc e.error_dict).map (fun p => (p.1, ErrVal.s p.2))

/-- Result of the Schema Engine's `to_python(params, state)`: the
normalized dict, or a raised `Invalid`. -/
inductive SchemaResult where
  | ok (d : Dict)
  | invalid (e : InvalidExc)

/-- Schema Engine collaborator. -/
structure Schema where
  to_python : Dict → State → SchemaResult

/-- The exceptions this adapter can raise: `HTTPBadRequest` (CSRF
failures), `FormNotValidated`, `FormInvalid`, `AssertionError`
(assert_valid contract violations), a re-raised FormEncode `Invalid`,
and Python's `AttributeError` for a missing attribute. -/
inductive Err where
  | httpBadRequest (msg : String)
  | formNotValidated
  | formInvalid (msg : String)
  | assertionError (msg : String)
  | invalidExc (e : InvalidExc)
  | attributeError (name : String)

/-- The module-level default CSRF field name. -/
def csrf_field : String := "_authentication_token"

/-- The `Form` object. `method` is `Option String`: Python `None` means
any method. `_data` is `Option Dict`: `none` models the `_data`
attribute not having been assigned yet. -/
structure Form where
  request : Request
  schema : Schema
  method : Option String
  dict_char : String
  list_char : String
  multipart : Bool
  is_validated : Bool
  errors : Errors
  state : State
  _data : Option Dict

/-- `Form.__init__(request, schema, method='POST')`. -/
def Form.make (request : Request) (schema : Schema) (method : Option String) : Form :=
  ⟨request, schema, method, ".", "-", true, false, [], ⟨request⟩, Option.none⟩

/-- The `data` property: raises `FormNotValidated` before validation;
reading a never-assigned `_data` would be an `AttributeError`. -/
def Form.data (f : Form) : Except Err Dict :=
  if f.is_validated then
    match f._data with
    | some d => .ok d
    | Option.none => .error (.attributeError "_data")
  else .error .formNotValidated

/-- `method_allowed`: with no configured method (or an empty string,
which is also falsy in Python), any method is allowed; otherwise the
request method must equal the configured one. -/
def Form.method_allowed (f : Form) : Bool :=
  match f.method with
  | some m => if m = "" then true else f.request.method = m
  | Option.none => true

/-- `_get_params`: the POST dict when the configured method is
`'POST'`, else the combined params dict. -/
def Form._get_params (f : Form) : Ref :=
  if f.method = some "POST" then f.request.POST else f.request.params

/-- Rendering of a value for the CSRF error message (stands in for
Python's `%r`). -/
def valStr : Val → String
  | .str s => s
  | .bool true => "True"
  | .bool false => "False"
  | .none => "None"

/-- `validate_csrf(params=None)`: fetch params if not given, raise
`HTTPBadRequest` when the CSRF field is missing or its value differs
from the session's `get_csrf_token()`. -/
def Form.validate_csrf (f : Form) (s : Store) (params : Option Dict) : Except Err Unit :=
  let p := match params with
    | some p => p
    | Option.none => s.read f._get_params
  if ¬ dictContains p csrf_field then
    .error (.httpBadRequest "Missing CSRF token")
  else
    let got := (dictGet p csrf_field).getD Val.none
    let wanted := f.request.session.get_csrf_token
    if got ≠ Val.str wanted then
      .error (.httpBadRequest ("Bad CSRF token: wanted " ++ wanted ++ ", got " ++ valStr got))
    else .ok ()

/-- A plain rendering of the errors dict, standing in for the `%r` in
the `assert valid` message. -/
def errValStr : ErrVal → String
  | .s m => m
  | .l ms => String.intercalate ", " ms

def errorsStr (es : Errors) : String :=
  String.intercalate "; " (es.map (fun p => p.1 ++ ": " ++ errValStr p.2))

/-- Python prints `None` for a missing method in the assert message. -/
def methodStr : Option String → String
  | some m => m
  | Option.none => "None"

/-- Lines 146-152 of `validate`: mark validated, compute validity, and
run the `assert valid` check. The form returned reflects the mutations
even when the assertion raises. -/
def Form.schemaFinish (f : Form) (av : Bool) : Except Err Bool × Form :=
  let f2 : Form := { f with is_validated := true }
  let valid := f2.errors.isEmpty
  if av ∧ ¬ valid then
    (.error (.assertionError ("form invalid with errors: " ++ errorsStr f2.errors)), f2)
  else
    (.ok valid, f2)

/-- Lines 124-152 of `validate`: store the raw params as `_data`, call
the schema, and either keep the normalized output, capture a structured
failure's unpacked errors, or re-raise an unstructured failure. The
logging call has no observable effect in this model. -/
def Form.schemaStep (f : Form) (params : Dict) (av : Bool) : Except Err Bool × Form :=
  let f1 : Form := { f with _data := some params }
  match f1.schema.to_python params f1.state with
  | .ok d => Form.schemaFinish { f1 with _data := some d } av
  | .invalid e =>
    if e.error_dict.isEmpty then
      (.error (.invalidExc e), f1)
    else
      Form.schemaFinish
        { f1 with errors := e.unpack_errors f1.dict_char f1.list_char } av

/-- `validate(skip_csrf=False, assert_valid=False)`. Returns the
result (a bool, or the raised exception), the form after its mutations,
and the heap after the parameter-copy mutations. -/
def Form.validate (f : Form) (s : Store) (skip_csrf av : Bool) :
    Except Err Bool × Form × Store :=
  if f.is_validated then
    (.ok f.errors.isEmpty, f, s)
  else if av ∧ ¬ f.method_allowed then
    (.error (.assertionError
      ("Expected request method " ++ methodStr f.method ++ "; got "
        ++ f.request.method ++ " instead")), f, s)
  else if ¬ av ∧ ¬ f.method_allowed then
    (.ok false, f, s)
  else
    let params := s.read f._get_params
    if ¬ skip_csrf then
      match f.validate_csrf s (some params) with
      | .error e => (.error e, f, s)
      | .ok _ =>
        let ac := s.alloc params
        let s2 := ac.1.popKey ac.2 csrf_field
        let params2 := s2.read ac.2
        let rf := f.schemaStep params2 av
        (rf.1, rf.2, s2)
    else
      let rf := f.schemaStep params av
      (rf.1, rf.2, s)

/-- `assert_valid(**kw)`: `validate` with `assert_valid=True`. -/
def Form.assert_valid (f : Form) (s : Store) (skip_csrf : Bool) :
    Except Err Bool × Form × Store :=
  f.validate s skip_csrf true

/-- An object being bound: its attribute map. -/
abbrev Obj := List (String × Val)

/-- `setattr(obj, k, v)`: overwrite the existing attribute or add a
new one. -/
def setAttr : Obj → String → Val → Obj
  | [], k, v => [(k, v)]
  | p :: rest, k, v => if p.1 = k then (k, v) :: rest else p :: setAttr rest k v

/-- `getattr(obj, k)`. -/
def getAttr : Obj → String → Option Val
  | [], _ => Option.none
  | p :: rest, k => if p.1 = k then some p.2 else getAttr rest k

/-- The loop body of `bind`: set every non-underscore-prefixed item. -/
def bindFold (d : Dict) (obj : Obj) : Obj :=
  (d.filter (fun p => ¬ p.1.startsWith "_")).foldl (fun o p => setAttr o p.1 p.2) obj

/-- `bind(obj)`: requires validation and no errors, then copies every
non-underscore key of `data` onto `obj` and returns it. -/
def Form.bind (f : Form) (obj : Obj) : Except Err Obj :=
  if ¬ f.is_validated then .error .formNotValidated
  else if ¬ f.errors.isEmpty then .error (.formInvalid "Form not valid; cannot bind")
  else
    match f.data with
    | .error e => .error e
    | .ok d => .ok (bindFold d obj)

/-- `Form.errors_for(field)`: the error list for a field, a bare string
normalized to a one-element list, `[]` when absent. -/
def Form.errors_for (f : Form) (field : String) : List String :=
  match (f.errors.find? (fun p => p.1 = field)).map (fun p => p.2) with
  | (Option.none : Option ErrVal) => []
  | some (ErrVal.s m) => [m]
  | some (ErrVal.l ms) => ms

/-- `Form.is_error(field)`: `field in self.errors`. -/
def Form.is_error (f : Form) (field : String) : Bool :=
  f.errors.any (fun p => p.1 = field)

/-- The Tag Renderer collaborator (`webhelpers2.html.tags`): each
builder is modelled as a constructor recording exactly the arguments
the adapter passes to it. `id` is the resolved id string; `checked` of
`radio`/`checkbox` is the Python value whose truthiness the collaborator
tests. -/
inductive TagOut where
  | text (name : String) (value : Val) (id : String)
  | file (name : String) (value : Val) (id : String)
  | hidden (name : String) (value : Val) (id : String)
  | submit (name : String) (value : Val) (id : String)
  | textarea (name : String) (content : Val) (id : String)
  | password (name : String) (value : Val) (id : String)
  | radio (name : String) (value : Val) (checked : Val) (label : Option String)
  | checkbox (name : String) (value : Val) (checked : Val) (label : Option String) (id : String)
  deriving DecidableEq, Repr

/-- `Renderer`: a `(data, errors, id_prefix)` snapshot. The `form`
field models the Python instance attribute `self.form`, which
`Renderer.__init__` never assigns — it exists (`some`) only on
instances whose `FormRenderer.__init__` ran. -/
structure Renderer where
  data : Dict
  errors : Errors
  idPrefix : Option String
  form : Option Form

/-- `Renderer.__init__(data, errors, id_prefix=None)`: no `form`
attribute is assigned. -/
def Renderer.make (data : Dict) (errors : Errors) (idPrefix : Option String) : Renderer :=
  ⟨data, errors, idPrefix, Option.none⟩

/-- `Renderer.value(name, default=None)`. -/
def Renderer.value (r : Renderer) (name : String) (default : Val) : Val :=
  (dictGet r.data name).getD default

/-- `Renderer._get_id(id, name)`: the explicit id, else the name with
a truthy `id_prefix` prepended. -/
def Renderer._get_id (r : Renderer) (id : Option String) (name : String) : String :=
  match id with
  | some i => i
  | Option.none =>
    match r.idPrefix with
    | some p => if p = "" then name else p ++ name
    | Option.none => name

/-- `Renderer.text(name, value=None, id=None)`. -/
def Renderer.text (r : Renderer) (name : String) (value : Val) (id : Option String) : TagOut :=
  TagOut.text name (r.value name value) (r._get_id id name)

/-- `Renderer.file(name, value=None, id=None)`. -/
def Renderer.file (r : Renderer) (name : String) (value : Val) (id : Option String) : TagOut :=
  TagOut.file name (r.value name value) (r._get_id id name)

/-- `Renderer.hidden(name, value=None, id=None)`: the one builder where
an explicit value short-circuits the data lookup. -/
def Renderer.hidden (r : Renderer) (name : String) (value : Val) (id : Option String) : TagOut :=
  let v := if value = Val.none then r.value name Val.none else value
  TagOut.hidden name v (r._get_id id name)

/-- `Renderer.radio(name, value=None, checked=False, label=None)`:
`checked = self.value(name) == value or checked`. -/
def Renderer.radio (r : Renderer) (name : String) (value checked : Val)
    (label : Option String) : TagOut :=
  let checked2 := if r.value name Val.none = value then Val.bool true else checked
  TagOut.radio name value checked2 label

/-- `Renderer.submit(name=None, value=None, id=None)` (modelled with a
given name). -/
def Renderer.submit (r : Renderer) (name : String) (value : Val) (id : Option String) : TagOut :=
  TagOut.submit name (r.value name value) (r._get_id id name)

/-- `Renderer.checkbox(name, value="1", checked=False, label=None,
id=None)`: the `checked` argument handed to the tag builder is
`self.value(name, checked)` — the stored value itself, with the
explicit flag only as the absent-key default. -/
def Renderer.checkbox (r : Renderer) (name : String) (value checked : Val)
    (label : Option String) (id : Option String) : TagOut :=
  TagOut.checkbox name value (r.value name checked) label (r._get_id id name)

/-- `Renderer.textarea(name, content="", id=None)`. -/
def Renderer.textarea (r : Renderer) (name : String) (content : Val) (id : Option String) : TagOut :=
  TagOut.textarea name (r.value name content) (r._get_id id name)

/-- `Renderer.password(name, value=None, id=None)`. -/
def Renderer.password (r : Renderer) (name : String) (value : Val) (id : Option String) : TagOut :=
  TagOut.password name (r.value name value) (r._get_id id name)

/-- `Renderer.is_error(name)`: `name in self.errors` — reads the
snapshot taken at construction. -/
def Renderer.is_error (r : Renderer) (name : String) : Bool :=
  r.errors.any (fun p => p.1 = name)

/-- `Renderer.errors_for(name)`: the source reads
`self.form.errors_for(name)`; on an instance whose `form` attribute was
never assigned this is an `AttributeError`. -/
def Renderer.errors_for (r : Renderer) (name : String) : Except Err (List String) :=
  match r.form with
  | Option.none => .error (.attributeError "form")
  | some f => .ok (f.errors_for name)

/-- `FormRenderer`: the composed object after a successful
`__init__`. Its `Renderer` part has `form` assigned. -/
structure FormRenderer where
  renderer : Renderer
  csrfField : String

/-- `FormRenderer.__init__(form, csrf_field=csrf_field,
id_prefix=None)`: assigns `self.form`, then calls `Renderer.__init__`
with `form.data` — which raises `FormNotValidated` on an unvalidated
form, so construction fails there. -/
def FormRenderer.make (form : Form) (cf : String) (idPrefix : Option String) :
    Except Err FormRenderer :=
  match form.data with
  | .error e => .error e
  | .ok d => .ok ⟨⟨d, form.errors, idPrefix, some form⟩, cf⟩

/-! ## Fixtures for concrete evaluation -/

/-- A schema that accepts its input unchanged. -/
def identSchema : Schema := ⟨fun p _ => SchemaResult.ok p⟩

def sampleSession : Session := ⟨"tok"⟩

def sampleRequest : Request :=
  ⟨"POST", ⟨0⟩, ⟨1⟩, sampleSession, "/submit", "http://example.com/submit"⟩

def samplePost : Dict := [("name", Val.str "Alice"), (csrf_field, Val.str "tok")]

def sampleStore : Store := ⟨[samplePost, []]⟩

def sampleForm : Form := Form.make sampleRequest identSchema (some "POST")

/-! ## Helper lemmas -/

theorem dictContains_eq_isSome (p : Dict) (k : String) :
    dictContains p k = (dictGet p k).isSome := by
  induction p with
  | nil => rfl
  | cons q rest ih =>
    simp only [dictContains, dictGet]
    split <;> simp [ih]

/-! ## C1: validate_csrf -/

/-- C1: `validate_csrf` returns normally iff the CSRF field is present
and equal to the session's `get_csrf_token()`; in every other case it
raises `HTTPBadRequest` (the client-error signal). When `params` is not
given it fetches them from the request. -/
theorem validate_csrf_spec (f : Form) (s : Store) (p : Dict) :
    (f.validate_csrf s (some p) = .ok () ↔
      dictGet p csrf_field = some (Val.str f.request.session.get_csrf_token)) ∧
    (dictGet p csrf_field ≠ some (Val.str f.request.session.get_csrf_token) →
      ∃ msg, f.validate_csrf s (some p) = .error (.httpBadRequest msg)) ∧
    f.validate_csrf s Option.none = f.validate_csrf s (some (s.read f._get_params)) := by
  refine ⟨?_, ?_, rfl⟩
  · simp only [Form.validate_csrf, dictContains_eq_isSome]
    cases h : dictGet p csrf_field with
    | none => simp
    | some v =>
      by_cases hv : v = Val.str f.request.session.get_csrf_token
      · simp [hv]
      · simp [hv]
  · intro hne
    simp only [Form.validate_csrf, dictContains_eq_isSome]
    cases h : dictGet p csrf_field with
    | none => exact ⟨"Missing CSRF token", by simp⟩
    | some v =>
      have hv : v ≠ Val.str f.request.session.get_csrf_token := by
        intro hv; exact hne (by rw [h, hv])
      exact ⟨"Bad CSRF token: wanted " ++ f.request.session.get_csrf_token
        ++ ", got " ++ valStr v, by simp [hv]⟩

/-- Witness for C1 at a concrete input: the matching token passes, and
a mismatched token yields `HTTPBadRequest`. -/
theorem validate_csrf_spec_witness :
    (dictGet [(csrf_field, Val.str "tok")] csrf_field =
        some (Val.str sampleForm.request.session.get_csrf_token) ∧
      sampleForm.validate_csrf sampleStore (some [(csrf_field, Val.str "tok")]) = .ok ()) ∧
    (dictGet [] csrf_field ≠ some (Val.str sampleForm.request.session.get_csrf_token) ∧
      ∃ msg, sampleForm.validate_csrf sampleStore (some []) = .error (.httpBadRequest msg)) :=
  ⟨⟨rfl, (validate_csrf_spec sampleForm sampleStore _).1.mpr rfl⟩,
   ⟨by simp [dictGet],
    (validate_csrf_spec sampleForm sampleStore []).2.1 (by simp [dictGet])⟩⟩

/-! ## C2: validate is idempotent -/

theorem schemaFinish_ok (f : Form) (av b : Bool) (f2 : Form)
    (h : f.schemaFinish av = (.ok b, f2)) :
    f2.is_validated = true ∧ b = f2.errors.isEmpty := by
  unfold Form.schemaFinish at h
  dsimp only at h
  split at h
  · exact absurd (congrArg Prod.fst h) (by simp)
  · rw [Prod.mk.injEq, Except.ok.injEq] at h
    obtain ⟨h1, h2⟩ := h
    subst h2
    exact ⟨rfl, h1.symm⟩

theorem schemaStep_ok (f : Form) (p : Dict) (av b : Bool) (f2 : Form)
    (h : f.schemaStep p av = (.ok b, f2)) :
    f2.is_validated = true ∧ b = f2.errors.isEmpty := by
  unfold Form.schemaStep at h
  dsimp only at h
  split at h
  · exact schemaFinish_ok _ _ _ _ h
  · split at h
    · exact absurd (congrArg Prod.fst h) (by simp)
    · exact schemaFinish_ok _ _ _ _ h

/-- Any successful `validate` leaves a form whose cached validity is
the boolean it returned, provided it marked the form validated. -/
theorem validate_ok_inv (f : Form) (s : Store) (sc av b : Bool) (f1 : Form) (s1 : Store)
    (h : f.validate s sc av = (.ok b, f1, s1)) (hv : f1.is_validated = true) :
    b = f1.errors.isEmpty := by
  unfold Form.validate at h
  dsimp only at h
  split at h
  · simp only [Prod.mk.injEq, Except.ok.injEq] at h
    obtain ⟨h1, h2, h3⟩ := h
    subst h2
    exact h1.symm
  · split at h
    · exact absurd (congrArg (fun q => q.1) h) (by simp)
    · split at h
      · simp only [Prod.mk.injEq, Except.ok.injEq] at h
        obtain ⟨h1, h2, h3⟩ := h
        subst h2
        simp_all
      · split at h
        · split at h
          · exact absurd (congrArg (fun q => q.1) h) (by simp)
          · simp only [Prod.mk.injEq] at h
            obtain ⟨h1, h2, h3⟩ := h
            exact (schemaStep_ok _ _ _ _ _ (Prod.ext h1 h2)).2
        · simp only [Prod.mk.injEq] at h
          obtain ⟨h1, h2, h3⟩ := h
          exact (schemaStep_ok _ _ _ _ _ (Prod.ext h1 h2)).2

/-- C2: `validate` is idempotent. If a call to `validate` returned a
boolean `b` and left the form validated, any later call — with any
`skip_csrf`/`assert_valid` arguments — returns the same `b` (which is
`not errors`) and leaves the form, its data and errors, and the heap of
parameter dictionaries unchanged: it is the cached short-circuit, which
never reaches the method check, the CSRF check, or the schema. -/
theorem validate_idempotent (f : Form) (s : Store) (sc av sc2 av2 b : Bool)
    (f1 : Form) (s1 : Store)
    (h : f.validate s sc av = (.ok b, f1, s1)) (hv : f1.is_validated = true) :
    f1.validate s1 sc2 av2 = (.ok b, f1, s1) ∧ b = f1.errors.isEmpty := by
  have hb := validate_ok_inv f s sc av b f1 s1 h hv
  constructor
  · unfold Form.validate
    simp [hv, hb]
  · exact hb

/-- A form whose validation already ran successfully. -/
def validatedForm : Form :=
  { sampleForm with is_validated := true, _data := some [("name", Val.str "Alice")] }

/-- Witness for C2: a concrete first call returned `true` and left the
form validated; the second call (with different arguments) returns the
same `true` and the same form and heap. -/
theorem validate_idempotent_witness :
    validatedForm.is_validated = true ∧
    validatedForm.validate sampleStore false true = (.ok true, validatedForm, sampleStore) :=
  ⟨rfl, (validate_idempotent validatedForm sampleStore false false false true true
    validatedForm sampleStore rfl rfl).1⟩

/-! ## C4: method mismatch -/

/-- C4: on a not-yet-validated form whose configured method does not
match the request's, `validate(assert_valid=False)` returns `false` at
once, leaving the form and the heap untouched (so neither the CSRF
check nor the schema ran), while `validate(assert_valid=True)` raises
`AssertionError` (the programmer-error signal). -/
theorem validate_method_mismatch (f : Form) (s : Store) (sc : Bool)
    (h1 : f.is_validated = false) (h2 : f.method_allowed = false) :
    f.validate s sc false = (.ok false, f, s) ∧
    f.validate s sc true = (.error (.assertionError
      ("Expected request method " ++ methodStr f.method ++ "; got "
        ++ f.request.method ++ " instead")), f, s) := by
  unfold Form.validate
  simp [h1, h2]

/-- A request submitted with GET against a form configured for POST. -/
def getRequest : Request :=
  ⟨"GET", ⟨0⟩, ⟨1⟩, sampleSession, "/submit", "http://example.com/submit"⟩

def mismatchForm : Form := Form.make getRequest identSchema (some "POST")

/-- Witness for C4 at the GET-against-POST input. -/
theorem validate_method_mismatch_witness :
    mismatchForm.is_validated = false ∧ mismatchForm.method_allowed = false ∧
    mismatchForm.validate sampleStore false false = (.ok false, mismatchForm, sampleStore) :=
  ⟨rfl, rfl, (validate_method_mismatch mismatchForm sampleStore false rfl rfl).1⟩

/-! ## C5: bind -/

theorem getAttr_setAttr_eq (o : Obj) (k : String) (v : Val) :
    getAttr (setAttr o k v) k = some v := by
  induction o with
  | nil => simp [setAttr, getAttr]
  | cons p rest ih =>
    simp only [setAttr]
    split
    · simp [getAttr]
    · next hne => simp [getAttr, hne, ih]

theorem getAttr_setAttr_ne (o : Obj) (k k2 : String) (v : Val) (h : k2 ≠ k) :
    getAttr (setAttr o k v) k2 = getAttr o k2 := by
  induction o with
  | nil => simp [setAttr, getAttr, Ne.symm h]
  | cons p rest ih =>
    simp only [setAttr]
    split
    · next he => simp [getAttr, Ne.symm h, he]
    · simp [getAttr, ih]

theorem getAttr_foldl_not_mem (l : List (String × Val)) (obj : Obj) (k : String)
    (h : ∀ q ∈ l, q.1 ≠ k) :
    getAttr (l.foldl (fun o p => setAttr o p.1 p.2) obj) k = getAttr obj k := by
  induction l generalizing obj with
  | nil => rfl
  | cons q rest ih =>
    simp only [List.foldl_cons]
    rw [ih _ (fun q hq => h q (List.mem_cons_of_mem _ hq))]
    exact getAttr_setAttr_ne obj q.1 k q.2 (Ne.symm (h q (List.mem_cons_self q rest)))

theorem getAttr_foldl_mem (l : List (String × Val)) (obj : Obj) (k : String) (v : Val)
    (hnd : (l.map Prod.fst).Nodup) (hm : (k, v) ∈ l) :
    getAttr (l.foldl (fun o p => setAttr o p.1 p.2) obj) k = some v := by
  induction l generalizing obj with
  | nil => cases hm
  | cons q rest ih =>
    simp only [List.map_cons, List.nodup_cons] at hnd
    rcases List.mem_cons.mp hm with he | hmem
    · subst he
      simp only [List.foldl_cons]
      rw [getAttr_foldl_not_mem]
      · exact getAttr_setAttr_eq obj k v
      · intro q2 hq2 he2
        apply hnd.1
        rw [← he2]
        exact List.mem_map.mpr ⟨q2, hq2, rfl⟩
    · exact ih (setAttr obj q.1 q.2) hnd.2 hmem

theorem dictGet_mem (d : Dict) (k : String) (v : Val) (h : dictGet d k = some v) :
    (k, v) ∈ d := by
  induction d with
  | nil => cases h
  | cons p rest ih =>
    simp only [dictGet] at h
    split at h
    · next he =>
      cases h
      cases p
      cases he
      exact List.mem_cons_self _ _
    · exact List.mem_cons_of_mem _ (ih h)

/-- C5: `bind(obj)` raises `FormNotValidated` on an unvalidated form,
raises `FormInvalid` when errors are present, and otherwise returns
`obj` updated with an attribute for every non-underscore-prefixed key
of `data`, leaving underscore-prefixed attributes untouched. -/
theorem bind_spec (f : Form) (obj : Obj) :
    (f.is_validated = false → f.bind obj = .error .formNotValidated) ∧
    (f.is_validated = true → f.errors ≠ [] →
      f.bind obj = .error (.formInvalid "Form not valid; cannot bind")) ∧
    (∀ d, f.is_validated = true → f.errors = [] → f._data = some d →
      f.bind obj = .ok (bindFold d obj) ∧
      (∀ k, k.startsWith "_" = true → getAttr (bindFold d obj) k = getAttr obj k) ∧
      (∀ k v, k.startsWith "_" = false → (d.map Prod.fst).Nodup →
        dictGet d k = some v → getAttr (bindFold d obj) k = some v)) := by
  refine ⟨?_, ?_, ?_⟩
  · intro h
    unfold Form.bind
    simp [h]
  · intro h he
    unfold Form.bind
    simp [h, he, List.isEmpty_iff]
  · intro d h he hd
    refine ⟨?_, ?_, ?_⟩
    · unfold Form.bind Form.data
      simp [h, he, hd]
    · intro k hk
      unfold bindFold
      apply getAttr_foldl_not_mem
      intro q hq he2
      have h2 := (List.mem_filter.mp hq).2
      rw [he2] at h2
      simp [hk] at h2
    · intro k v hk hnd hv
      unfold bindFold
      apply getAttr_foldl_mem
      · refine List.Nodup.sublist (List.Sublist.map Prod.fst ?_) hnd
        exact List.filter_sublist d
      · exact List.mem_filter.mpr ⟨dictGet_mem d k v hv, by simp [hk]⟩

/-- Witness for C5: binding the validated sample form copies `name`
onto the object; binding an unvalidated form raises `FormNotValidated`.
-/
theorem bind_spec_witness :
    (validatedForm.is_validated = true ∧ validatedForm.errors = [] ∧
      validatedForm._data = some [("name", Val.str "Alice")] ∧
      validatedForm.bind [] = .ok (bindFold [("name", Val.str "Alice")] [])) ∧
    (sampleForm.is_validated = false ∧ sampleForm.bind [] = .error .formNotValidated) :=
  ⟨⟨rfl, rfl, rfl,
    ((bind_spec validatedForm []).2.2 [("name", Val.str "Alice")] rfl rfl rfl).1⟩,
   ⟨rfl, (bind_spec sampleForm []).1 rfl⟩⟩

/-! ## C3: structured vs unstructured schema failures -/

mutual

theorem unpackExc_ne_nil (dc key : String) : ∀ e : InvalidExc, unpackExc dc key e ≠ []
  | .mk m kvs => by
    unfold unpackExc
    split
    · simp
    · next hne => exact unpackDict_ne_nil dc key kvs (by simpa using hne)

theorem unpackDict_ne_nil (dc key : String) :
    ∀ kvs : List (String × InvalidExc), kvs ≠ [] → unpackDict dc key kvs ≠ []
  | [], h => absurd rfl h
  | (k, e) :: _, _ => by
    unfold unpackDict
    intro hc
    exact unpackExc_ne_nil dc (key ++ dc ++ k) e (List.append_eq_nil.mp hc).1

end

theorem unpackTop_ne_nil (dc : String) (kvs : List (String × InvalidExc)) (h : kvs ≠ []) :
    unpackTop dc kvs ≠ [] := by
  match kvs with
  | [] => exact absurd rfl h
  | (k, e) :: rest =>
    unfold unpackTop
    intro hc
    exact unpackExc_ne_nil dc k e (List.append_eq_nil.mp hc).1

/-- A truthy `error_dict` always unpacks to a non-empty errors dict. -/
theorem unpack_errors_ne_nil (e : InvalidExc) (dc lc : String) (h : e.error_dict ≠ []) :
    e.unpack_errors dc lc ≠ [] := by
  unfold InvalidExc.unpack_errors
  intro hc
  exact unpackTop_ne_nil dc e.error_dict h (by simpa using hc)

/-- C3: when the schema raises a validation failure during
`validate()`: with a truthy `error_dict` the unpacked mapping is
captured into `errors` and `validate` returns `false` without raising;
with no `error_dict` the exact exception is re-raised (only the
`_data = params` assignment made before the `try` has happened). Stated
on the `skip_csrf=True, assert_valid=False` path, which reaches the
schema directly. -/
theorem validate_schema_failure (f : Form) (s : Store) (e : InvalidExc)
    (h1 : f.is_validated = false) (h2 : f.method_allowed = true)
    (he : f.schema.to_python (s.read f._get_params) f.state = .invalid e) :
    (e.error_dict ≠ [] →
      f.validate s true false =
        (.ok false,
         { f with _data := some (s.read f._get_params),
                  errors := e.unpack_errors f.dict_char f.list_char,
                  is_validated := true }, s)) ∧
    (e.error_dict = [] →
      f.validate s true false =
        (.error (.invalidExc e),
         { f with _data := some (s.read f._get_params) }, s)) := by
  constructor
  · intro hed
    have hed2 : e.error_dict.isEmpty = false := List.isEmpty_eq_false.mpr hed
    have hne : (e.unpack_errors f.dict_char f.list_char).isEmpty = false :=
      List.isEmpty_eq_false.mpr (unpack_errors_ne_nil e f.dict_char f.list_char hed)
    unfold Form.validate
    simp only [h1, h2, Bool.not_true, Bool.false_eq_true, if_false, Bool.not_false,
      false_and, and_false, ite_false, ite_true]
    unfold Form.schemaStep
    dsimp only
    rw [he]
    simp only [hed2, Bool.false_eq_true, if_false]
    unfold Form.schemaFinish
    simp [hne, h1]
  · intro hed
    have hed2 : e.error_dict.isEmpty = true := by simp [hed]
    unfold Form.validate
    simp only [h1, h2, Bool.not_true, Bool.false_eq_true, if_false, Bool.not_false,
      false_and, and_false, ite_false, ite_true]
    unfold Form.schemaStep
    dsimp only
    rw [he]
    simp [hed2, h1]

/-- A structured failure: an `error_dict` with one per-field error. -/
def invalidStructured : InvalidExc := .mk "bad" [("name", .mk "Missing value" [])]

/-- An unstructured failure: no `error_dict`. -/
def invalidPlain : InvalidExc := .mk "boom" []

def failSchemaD : Schema := ⟨fun _ _ => .invalid invalidStructured⟩

def failSchemaU : Schema := ⟨fun _ _ => .invalid invalidPlain⟩

def formD : Form := Form.make sampleRequest failSchemaD (some "POST")

def formU : Form := Form.make sampleRequest failSchemaU (some "POST")

/-- Witness for C3: a concrete structured failure is captured and
`validate` returns `false`; a concrete unstructured failure is
re-raised unchanged. -/
theorem validate_schema_failure_witness :
    (invalidStructured.error_dict ≠ [] ∧
      formD.validate sampleStore true false =
        (.ok false,
         { formD with _data := some (sampleStore.read formD._get_params),
                      errors := invalidStructured.unpack_errors formD.dict_char formD.list_char,
                      is_validated := true }, sampleStore)) ∧
    (invalidPlain.error_dict = [] ∧
      formU.validate sampleStore true false =
        (.error (.invalidExc invalidPlain),
         { formU with _data := some (sampleStore.read formU._get_params) }, sampleStore)) :=
  ⟨⟨by simp [invalidStructured, InvalidExc.error_dict],
    (validate_schema_failure formD sampleStore invalidStructured rfl rfl rfl).1
      (by simp [invalidStructured, InvalidExc.error_dict])⟩,
   ⟨rfl,
    (validate_schema_failure formU sampleStore invalidPlain rfl rfl rfl).2 rfl⟩⟩

/-! ## C6: the CSRF field is popped from a copy; request params are
never mutated -/

theorem listGetD_append_lt {α : Type} (l l2 : List α) (d : α) (i : Nat)
    (h : i < l.length) : (l ++ l2).getD i d = l.getD i d := by
  induction l generalizing i with
  | nil => cases h
  | cons a rest ih =>
    cases i with
    | zero => rfl
    | succ n => exact ih n (Nat.lt_of_succ_lt_succ h)

theorem listGetD_append_len {α : Type} (l : List α) (d x : α) :
    (l ++ [x]).getD l.length d = x := by
  induction l with
  | nil => rfl
  | cons a rest ih => exact ih

theorem listGetD_set_eq {α : Type} (l : List α) (i : Nat) (a d : α)
    (h : i < l.length) : (l.set i a).getD i d = a := by
  induction l generalizing i with
  | nil => cases h
  | cons b rest ih =>
    cases i with
    | zero => rfl
    | succ n => exact ih n (Nat.lt_of_succ_lt_succ h)

theorem listGetD_set_ne {α : Type} (l : List α) (i j : Nat) (a d : α)
    (h : i ≠ j) : (l.set i a).getD j d = l.getD j d := by
  induction l generalizing i j with
  | nil => rfl
  | cons b rest ih =>
    cases i with
    | zero =>
      cases j with
      | zero => exact absurd rfl h
      | succ m => rfl
    | succ n =>
      cases j with
      | zero => rfl
      | succ m => exact ih n m (fun he => h (by rw [he]))

theorem Store.read_alloc_old (s : Store) (d : Dict) (r : Ref)
    (h : r.idx < s.dicts.length) : (s.alloc d).1.read r = s.read r :=
  listGetD_append_lt s.dicts [d] [] r.idx h

theorem Store.read_alloc_new (s : Store) (d : Dict) :
    (s.alloc d).1.read (s.alloc d).2 = d :=
  listGetD_append_len s.dicts [] d

theorem Store.read_write_eq (s : Store) (r : Ref) (d : Dict)
    (h : r.idx < s.dicts.length) : (s.write r d).read r = d :=
  listGetD_set_eq s.dicts r.idx d [] h

theorem Store.read_write_ne (s : Store) (r r2 : Ref) (d : Dict)
    (h : r.idx ≠ r2.idx) : (s.write r d).read r2 = s.read r2 :=
  listGetD_set_ne s.dicts r.idx r2.idx d [] h

/-- A matching token makes `validate_csrf` return normally. -/
theorem validate_csrf_ok_of_match (f : Form) (s : Store) (p : Dict)
    (h : dictGet p csrf_field = some (Val.str f.request.session.get_csrf_token)) :
    f.validate_csrf s (some p) = .ok () := by
  unfold Form.validate_csrf
  simp [dictContains_eq_isSome, h]

/-- C6: on the `skip_csrf=False` path with a passing CSRF check, the
result and form mutations of `validate` are exactly those of the schema
step run on a copy of the parameters with the CSRF field removed — the
schema engine is handed `dictPop params csrf_field` — and in the final
heap the request's own POST and combined-params dictionaries still hold
their original entries: `validate` never mutates them. -/
theorem validate_frame (f : Form) (s : Store) (av : Bool)
    (h1 : f.is_validated = false) (h2 : f.method_allowed = true)
    (hcsrf : dictGet (s.read f._get_params) csrf_field =
      some (Val.str f.request.session.get_csrf_token))
    (hPOST : f.request.POST.idx < s.dicts.length)
    (hparams : f.request.params.idx < s.dicts.length) :
    (f.validate s false av).1 =
      (f.schemaStep (dictPop (s.read f._get_params) csrf_field) av).1 ∧
    (f.validate s false av).2.1 =
      (f.schemaStep (dictPop (s.read f._get_params) csrf_field) av).2 ∧
    (f.validate s false av).2.2.read f.request.POST = s.read f.request.POST ∧
    (f.validate s false av).2.2.read f.request.params = s.read f.request.params := by
  have hok := validate_csrf_ok_of_match f s (s.read f._get_params) hcsrf
  have hlen : ((s.alloc (s.read f._get_params)).2).idx = s.dicts.length := rfl
  have hcopy : ((s.alloc (s.read f._get_params)).1.popKey
      (s.alloc (s.read f._get_params)).2 csrf_field).read
      (s.alloc (s.read f._get_params)).2
      = dictPop (s.read f._get_params) csrf_field := by
    unfold Store.popKey
    rw [Store.read_alloc_new]
    apply Store.read_write_eq
    simp [Store.alloc]
  have hframe : ∀ r : Ref, r.idx < s.dicts.length →
      ((s.alloc (s.read f._get_params)).1.popKey
        (s.alloc (s.read f._get_params)).2 csrf_field).read r = s.read r := by
    intro r hr
    unfold Store.popKey
    have hw := Store.read_write_ne ((s.alloc (s.read f._get_params)).1)
      ((s.alloc (s.read f._get_params)).2) r
      (dictPop ((s.alloc (s.read f._get_params)).1.read
        (s.alloc (s.read f._get_params)).2) csrf_field)
      (Nat.ne_of_gt hr)
    rw [hw]
    exact Store.read_alloc_old s _ r hr
  have c1 : ¬ (f.is_validated = true) := by simp [h1]
  have c2 : ¬ (av = true ∧ ¬ f.method_allowed = true) := by simp [h2]
  have c3 : ¬ (¬ av = true ∧ ¬ f.method_allowed = true) := by simp [h2]
  unfold Form.validate
  rw [if_neg c1, if_neg c2, if_neg c3, if_pos (by simp : ¬ false = true), hok]
  dsimp only
  rw [hcopy]
  exact ⟨rfl, rfl, hframe f.request.POST hPOST, hframe f.request.params hparams⟩

/-- Witness for C6 at the sample POST request: the token matches, and
after `validate` the request's POST dict still holds its original
entries while the schema step received the popped copy. -/
theorem validate_frame_witness :
    (sampleForm.is_validated = false ∧ sampleForm.method_allowed = true ∧
      dictGet (sampleStore.read sampleForm._get_params) csrf_field =
        some (Val.str sampleForm.request.session.get_csrf_token)) ∧
    (sampleForm.validate sampleStore false false).2.2.read sampleForm.request.POST =
      sampleStore.read sampleForm.request.POST ∧
    (sampleForm.validate sampleStore false false).1 =
      (sampleForm.schemaStep
        (dictPop (sampleStore.read sampleForm._get_params) csrf_field) false).1 :=
  ⟨⟨rfl, by decide, by decide⟩,
   (validate_frame sampleForm sampleStore false rfl (by decide) (by decide)
      (by decide) (by decide)).2.2.1,
   (validate_frame sampleForm sampleStore false rfl (by decide) (by decide)
      (by decide) (by decide)).1⟩

/-! ## C7: Renderer.errors_for on a plain snapshot Renderer -/

/-- A Renderer built directly from a `(data, errors, id_prefix)`
snapshot, as `Renderer.__init__` produces it. -/
def snapshotRenderer : Renderer := Renderer.make [] [("x", ErrVal.l ["msg"])] Option.none

/-- C7: on a Renderer constructed from a snapshot alone,
`errors_for` does not read the snapshot: the source evaluates
`self.form.errors_for(name)` and the `form` attribute was never
assigned, so the call raises `AttributeError` even though the error is
sitting in the snapshot (`is_error`, which does read the snapshot,
sees it). -/
theorem renderer_errors_for_attribute_error :
    snapshotRenderer.errors_for "x" = .error (.attributeError "form") ∧
    snapshotRenderer.is_error "x" = true ∧
    snapshotRenderer.errors = [("x", ErrVal.l ["msg"])] :=
  ⟨rfl, rfl, rfl⟩

/-! ## C8: explicit value vs data snapshot in control builders -/

def storedRenderer : Renderer := Renderer.make [("x", Val.str "stored")] [] Option.none

/-- C8 counterexample: `text` was given the explicit value
`"explicit"`, yet the value rendered is the snapshot's `"stored"` —
the explicit value does not override the snapshot. -/
theorem renderer_value_override_cex :
    storedRenderer.text "x" (Val.str "explicit") Option.none =
      TagOut.text "x" (Val.str "stored") "x" ∧
    Val.str "stored" ≠ Val.str "explicit" :=
  ⟨rfl, by decide⟩

/-- C8 amended: for `text`, `file`, `submit`, `textarea` and
`password` the snapshot value takes precedence and the explicitly
passed value is only the default used when the name is absent from the
data snapshot; only `hidden` renders a non-`None` explicit value in
preference to the snapshot. -/
theorem renderer_value_resolution (r : Renderer) (name : String) (v : Val)
    (id : Option String) :
    (∀ w, dictGet r.data name = some w →
      r.text name v id = TagOut.text name w (r._get_id id name) ∧
      r.file name v id = TagOut.file name w (r._get_id id name) ∧
      r.submit name v id = TagOut.submit name w (r._get_id id name) ∧
      r.textarea name v id = TagOut.textarea name w (r._get_id id name) ∧
      r.password name v id = TagOut.password name w (r._get_id id name) ∧
      (v ≠ Val.none → r.hidden name v id = TagOut.hidden name v (r._get_id id name))) ∧
    (dictGet r.data name = Option.none →
      r.text name v id = TagOut.text name v (r._get_id id name) ∧
      r.file name v id = TagOut.file name v (r._get_id id name) ∧
      r.submit name v id = TagOut.submit name v (r._get_id id name) ∧
      r.textarea name v id = TagOut.textarea name v (r._get_id id name) ∧
      r.password name v id = TagOut.password name v (r._get_id id name) ∧
      r.hidden name v id = TagOut.hidden name v (r._get_id id name)) := by
  constructor
  · intro w hw
    refine ⟨?_, ?_, ?_, ?_, ?_, ?_⟩
    · simp [Renderer.text, Renderer.value, hw]
    · simp [Renderer.file, Renderer.value, hw]
    · simp [Renderer.submit, Renderer.value, hw]
    · simp [Renderer.textarea, Renderer.value, hw]
    · simp [Renderer.password, Renderer.value, hw]
    · intro hv
      simp [Renderer.hidden, hv]
  · intro hw
    refine ⟨?_, ?_, ?_, ?_, ?_, ?_⟩
    · simp [Renderer.text, Renderer.value, hw]
    · simp [Renderer.file, Renderer.value, hw]
    · simp [Renderer.submit, Renderer.value, hw]
    · simp [Renderer.textarea, Renderer.value, hw]
    · simp [Renderer.password, Renderer.value, hw]
    · unfold Renderer.hidden Renderer.value
      split
      next hv => simp [hw, hv]
      next hv => rfl

/-- Witness for the amended C8: with `"x"` stored as `"stored"`,
`text` renders the snapshot value while `hidden` renders the explicit
one. -/
theorem renderer_value_resolution_witness :
    dictGet storedRenderer.data "x" = some (Val.str "stored") ∧
    storedRenderer.text "x" (Val.str "explicit2") Option.none =
      TagOut.text "x" (Val.str "stored") "x" ∧
    storedRenderer.hidden "x" (Val.str "explicit2") Option.none =
      TagOut.hidden "x" (Val.str "explicit2") "x" :=
  ⟨rfl,
   ((renderer_value_resolution storedRenderer "x" (Val.str "explicit2")
      Option.none).1 (Val.str "stored") rfl).1,
   ((renderer_value_resolution storedRenderer "x" (Val.str "explicit2")
      Option.none).1 (Val.str "stored") rfl).2.2.2.2.2 (by decide)⟩

/-! ## C9: checked-state resolution of radio and checkbox -/

def mismatchRenderer : Renderer := Renderer.make [("x", Val.str "2")] [] Option.none

/-- C9 counterexample: with `"x"` stored as `"2"`, a checkbox whose
control value is `"1"` and whose explicit flag is `False` receives the
truthy `"2"` as its checked argument, although the stored value does
not equal the control's value and the explicit flag is falsy — so the
checkbox's checked state does not come from that equality. -/
theorem renderer_checkbox_checked_cex :
    mismatchRenderer.checkbox "x" (Val.str "1") (Val.bool false) Option.none Option.none =
      TagOut.checkbox "x" (Val.str "1") (Val.str "2") Option.none "x" ∧
    mismatchRenderer.value "x" Val.none ≠ Val.str "1" ∧
    pyTruthy (Val.bool false) = false ∧
    pyTruthy (Val.str "2") = true :=
  ⟨rfl, by decide, rfl, rfl⟩

/-- C9 amended: `radio` derives its checked argument from equality of
the stored snapshot value with the control's value, falling back to
the explicit flag; `checkbox` instead passes the stored snapshot value
itself (the explicit flag serving only as the absent-key default), so
its checked state is that value's truthiness, not an equality test. -/
theorem renderer_checked_resolution (r : Renderer) (name : String) (v chk : Val)
    (lbl id : Option String) (w : Val) (hw : dictGet r.data name = some w) :
    r.radio name v chk lbl =
      TagOut.radio name v (if w = v then Val.bool true else chk) lbl ∧
    r.checkbox name v chk lbl id =
      TagOut.checkbox name v w lbl (r._get_id id name) := by
  constructor
  · simp only [Renderer.radio, Renderer.value, hw, Option.getD_some]
  · simp only [Renderer.checkbox, Renderer.value, hw, Option.getD_some]

/-- Witness for the amended C9 on the stored-"2" snapshot. -/
theorem renderer_checked_resolution_witness :
    dictGet mismatchRenderer.data "x" = some (Val.str "2") ∧
    mismatchRenderer.radio "x" (Val.str "1") (Val.bool false) Option.none =
      TagOut.radio "x" (Val.str "1") (Val.bool false) Option.none ∧
    mismatchRenderer.checkbox "x" (Val.str "1") (Val.bool false) Option.none Option.none =
      TagOut.checkbox "x" (Val.str "1") (Val.str "2") Option.none "x" := by
  have h := renderer_checked_resolution mismatchRenderer "x" (Val.str "1")
    (Val.bool false) Option.none Option.none (Val.str "2") rfl
  refine ⟨rfl, ?_, h.2⟩
  rw [h.1]
  simp

/-! ## C10: FormRenderer construction requires a validated form -/

/-- C10: `FormRenderer.__init__` reads `form.data` to take its
snapshot, so constructing one over a form whose `is_validated` is
false raises `FormNotValidated`. -/
theorem formrenderer_requires_validated (form : Form) (cf : String)
    (idp : Option String) (h : form.is_validated = false) :
    FormRenderer.make form cf idp = .error .formNotValidated := by
  unfold FormRenderer.make Form.data
  simp [h]

/-- Witness for C10: the unvalidated sample form. -/
theorem formrenderer_requires_validated_witness :
    sampleForm.is_validated = false ∧
    FormRenderer.make sampleForm csrf_field Option.none = .error .formNotValidated :=
  ⟨rfl, formrenderer_requires_validated sampleForm csrf_field Option.none rfl⟩

end PyramidUniform
